import Mathlib

/-!
Shallow embedding of the network-commissioning cluster
(src/app/clusters/network-commissioning/network-commissioning.cpp) and of
TimedRequest (src/app/TimedRequest.cpp) from the Xiole-KKE/connectedhomeip
sources, together with theorems settling the spec claims.

Build configuration embedded: CHIP_DEVICE_CONFIG_ENABLE_THREAD set,
CHIP_DEVICE_LAYER_TARGET defined, CHIP_DEVICE_LAYER_TARGET_LINUX not set,
CHIP_CLUSTER_NETWORK_COMMISSIONING_MAX_NETWORKS left at its default of 4.

Machine bytes are modelled as natural numbers; a C byte buffer of fixed size
is modelled as the list of its bytes, and memcpy of n source bytes into such
a buffer overwrites its first n bytes and keeps the rest.
-/

/-- A byte string. -/
abbrev Bytes := List Nat

/-- Semantics of memcpy(dst, src, src.len) into a fixed-size buffer dst:
the first src.length bytes are replaced, the remaining bytes keep their
previous values. -/
def memcpyInto (dst src : Bytes) : Bytes :=
  src ++ dst.drop src.length

/-- kMaxNetworkIDLen from network-commissioning.cpp line 59. -/
def kMaxNetworkIDLen : Nat := 32

/-- kMaxThreadDatasetLen from network-commissioning.cpp line 60. -/
def kMaxThreadDatasetLen : Nat := 254

/-- kMaxWiFiSSIDLen from network-commissioning.cpp line 61. -/
def kMaxWiFiSSIDLen : Nat := 32

/-- kMaxWiFiCredentialsLen from network-commissioning.cpp line 62. -/
def kMaxWiFiCredentialsLen : Nat := 64

/-- kMaxNetworks from network-commissioning.cpp line 63 (default build value 4). -/
def kMaxNetworks : Nat := 4

/-- NetworkType enum from network-commissioning.cpp lines 65-71. -/
inductive NetworkType : Type
  | kUndefined
  | kWiFi
  | kThread
  | kEthernet
deriving DecidableEq, Repr

/-- WiFiNetworkInfo from network-commissioning.cpp lines 79-85.  The mSSID
buffer has kMaxWiFiSSIDLen + 1 = 33 bytes and mCredentials has 64 bytes;
the length fields are uint8_t. -/
structure WiFiNetworkInfo : Type where
  mSSID : Bytes
  mSSIDLen : Nat
  mCredentials : Bytes
  mCredentialsLen : Nat
deriving DecidableEq, Repr

/-- The union NetworkData from network-commissioning.cpp lines 93-101.
The source is a C union whose members are only ever read under the matching
mNetworkType tag, so it is embedded as a product.  mThread holds the byte
value of the stored Thread::OperationalDataset (its mData buffer up to its
mLength). -/
structure NetworkData : Type where
  mThread : Bytes
  mWiFi : WiFiNetworkInfo
deriving DecidableEq, Repr

/-- NetworkInfo from network-commissioning.cpp lines 87-102.  mNetworkID is a
32-byte buffer with explicit length mNetworkIDLen; mEnabled is a boolean. -/
structure NetworkInfo : Type where
  mNetworkID : Bytes
  mNetworkIDLen : Nat
  mEnabled : Bool
  mNetworkType : NetworkType
  mData : NetworkData
deriving DecidableEq, Repr

/-- The commissioning status codes used by the cluster (the members of
NetworkCommissioningStatus that appear in network-commissioning.cpp). -/
inductive NetworkCommissioningStatus : Type
  | kSuccess
  | kOutOfRange
  | kBoundsExceeded
  | kNetworkIDNotFound
  | kUnknownError
deriving DecidableEq, Repr

/-- A zero-initialized slot of the global sNetworks array
(network-commissioning.cpp line 106): the static array is zero-initialized,
so mNetworkType is kUndefined (= 0), all buffers are zero bytes and all
lengths are 0. -/
def emptySlot : NetworkInfo :=
  { mNetworkID := List.replicate kMaxNetworkIDLen 0
    mNetworkIDLen := 0
    mEnabled := false
    mNetworkType := .kUndefined
    mData :=
      { mThread := []
        mWiFi :=
          { mSSID := List.replicate (kMaxWiFiSSIDLen + 1) 0
            mSSIDLen := 0
            mCredentials := List.replicate kMaxWiFiCredentialsLen 0
            mCredentialsLen := 0 } } }

/-- The initial state of the global table sNetworks[kMaxNetworks]
(network-commissioning.cpp lines 104-107). -/
def sNetworksInit : List NetworkInfo :=
  List.replicate kMaxNetworks emptySlot

/-- One iteration body of the first-fit loop of
OnAddOrUpdateWiFiNetworkCommandCallbackInternal (network-commissioning.cpp
lines 170-199), acting on the first kUndefined slot found.  Each VerifyOrExit
becomes a conditional that leaves the loop with kOutOfRange, keeping every
mutation performed so far; each CanCastTo to a uint8_t length field is the
bound 255 on the value being cast (the credentials-length cast at line 184
tests ssid.size(), exactly as the source does). -/
def wifiWriteSlot (slot : NetworkInfo) (ssid credentials : Bytes) :
    NetworkCommissioningStatus × NetworkInfo :=
  if ¬ ssid.length ≤ kMaxWiFiSSIDLen + 1 then (.kOutOfRange, slot) else
  let slot1 := { slot with mData.mWiFi.mSSID := memcpyInto slot.mData.mWiFi.mSSID ssid }
  if ¬ ssid.length ≤ 255 then (.kOutOfRange, slot1) else
  let slot2 := { slot1 with mData.mWiFi.mSSIDLen := ssid.length }
  if ¬ credentials.length ≤ kMaxWiFiCredentialsLen then (.kOutOfRange, slot2) else
  let slot3 := { slot2 with
    mData.mWiFi.mCredentials := memcpyInto slot2.mData.mWiFi.mCredentials credentials }
  if ¬ ssid.length ≤ 255 then (.kOutOfRange, slot3) else
  let slot4 := { slot3 with mData.mWiFi.mCredentialsLen := credentials.length }
  if ¬ ssid.length ≤ kMaxNetworkIDLen then (.kOutOfRange, slot4) else
  let slot5 := { slot4 with
    mNetworkID := memcpyInto slot4.mNetworkID (slot4.mData.mWiFi.mSSID.take ssid.length) }
  if ¬ ssid.length ≤ 255 then (.kOutOfRange, slot5) else
  let slot6 := { slot5 with mNetworkIDLen := ssid.length }
  (.kSuccess, { slot6 with mNetworkType := .kWiFi, mEnabled := false })

/-- The first-fit scan of OnAddOrUpdateWiFiNetworkCommandCallbackInternal
(network-commissioning.cpp lines 168-200): err starts as kBoundsExceeded and
the loop body runs on the first slot whose mNetworkType is kUndefined; both
success and a VerifyOrExit failure leave the loop at once. -/
def addWiFiLoop (ssid credentials : Bytes) :
    List NetworkInfo → NetworkCommissioningStatus × List NetworkInfo
  | [] => (.kBoundsExceeded, [])
  | slot :: rest =>
    if slot.mNetworkType = .kUndefined then
      let r := wifiWriteSlot slot ssid credentials
      (r.1, r.2 :: rest)
    else
      let r := addWiFiLoop ssid credentials rest
      (r.1, slot :: r.2)

/-- Embedding of OnAddOrUpdateWiFiNetworkCommandCallbackInternal
(network-commissioning.cpp lines 160-216) on the enabled build: the result is
the networkingStatus written into the response and the table state after the
call. -/
def OnAddOrUpdateWiFiNetwork (t : List NetworkInfo) (ssid credentials : Bytes) :
    NetworkCommissioningStatus × List NetworkInfo :=
  addWiFiLoop ssid credentials t

/-- Modelled from the spec: the Thread operational dataset is an opaque blob of
at most 254 bytes structured as a sequence of TLVs (one byte of type, one byte
of length, then that many value bytes); lib/support/ThreadOperationalDataset is
not among the given sources.  This parses the blob into its TLV list, failing
on a truncated TLV.  The first argument is recursion fuel: each TLV consumes
at least two bytes, so fuel equal to the blob length never runs out. -/
def parseTLVsAux : Nat → Bytes → Option (List (Nat × Bytes))
  | _, [] => some []
  | 0, _ :: _ => none
  | _ + 1, [_] => none
  | fuel + 1, tag :: len :: rest =>
    if len ≤ rest.length then
      match parseTLVsAux fuel (rest.drop len) with
      | some tlvs => some ((tag, rest.take len) :: tlvs)
      | none => none
    else none

/-- Modelled from the spec: the TLV list of an operational-dataset blob, or
none when the blob is malformed. -/
def parseThreadTLVs (bs : Bytes) : Option (List (Nat × Bytes)) :=
  parseTLVsAux bs.length bs

/-- Modelled from the spec: Thread::kSizeExtendedPanId, the fixed size (8
bytes) of the extended PAN ID derived from an operational dataset. -/
def kSizeExtendedPanId : Nat := 8

/-- Modelled from the spec: the TLV type tag under which a Thread operational
dataset carries its extended PAN ID. -/
def kExtendedPanIdTag : Nat := 2

/-- Modelled from the spec: Thread::OperationalDataset::Init validates the
blob (parses as TLVs, at most 254 bytes); on success the dataset value is the
blob itself, a parse failure returns an error without storing anything. -/
def OperationalDataset.Init (bs : Bytes) : Option Bytes :=
  if bs.length ≤ kMaxThreadDatasetLen ∧ (parseThreadTLVs bs).isSome then some bs
  else none

/-- Modelled from the spec: Thread::OperationalDataset::GetExtendedPanId looks
up the extended-PAN-ID TLV of the dataset and yields its 8-byte value, failing
when the dataset has no such TLV (or its value is not exactly 8 bytes). -/
def GetExtendedPanId (bs : Bytes) : Option Bytes :=
  match parseThreadTLVs bs with
  | none => none
  | some tlvs =>
    match tlvs.find? (fun tlv => tlv.1 = kExtendedPanIdTag) with
    | none => none
    | some tlv => if tlv.2.length = kSizeExtendedPanId then some tlv.2 else none

/-- The first-fit scan of OnAddOrUpdateThreadNetworkCommandCallbackInternal
(network-commissioning.cpp lines 115-145): err starts as kBoundsExceeded; on
the first kUndefined slot, dataset.Init failure sets err = kUnknownError and
breaks; a GetExtendedPanId failure goes to exit with err still holding
kBoundsExceeded (SuccessOrExit at line 135 runs before err is reassigned),
with the dataset already stored in the slot; otherwise the extended PAN ID is
copied into mNetworkID, the length set to 8, the type to kThread and enabled
to false, and err = kSuccess. -/
def addThreadLoop (operationalDataset : Bytes) :
    List NetworkInfo → NetworkCommissioningStatus × List NetworkInfo
  | [] => (.kBoundsExceeded, [])
  | slot :: rest =>
    if slot.mNetworkType = .kUndefined then
      match OperationalDataset.Init operationalDataset with
      | none => (.kUnknownError, slot :: rest)
      | some stored =>
        let slot1 := { slot with mData.mThread := stored }
        match GetExtendedPanId stored with
        | none => (.kBoundsExceeded, slot1 :: rest)
        | some extendedPanId =>
          let slot2 := { slot1 with
            mNetworkID := memcpyInto slot1.mNetworkID extendedPanId
            mNetworkIDLen := kSizeExtendedPanId
            mNetworkType := .kThread
            mEnabled := false }
          (.kSuccess, slot2 :: rest)
    else
      let r := addThreadLoop operationalDataset rest
      (r.1, slot :: r.2)

/-- Embedding of OnAddOrUpdateThreadNetworkCommandCallbackInternal
(network-commissioning.cpp lines 109-158) on the thread-enabled build: the
result is the networkingStatus written into the response and the table state
after the call. -/
def OnAddOrUpdateThreadNetwork (t : List NetworkInfo) (operationalDataset : Bytes) :
    NetworkCommissioningStatus × List NetworkInfo :=
  addThreadLoop operationalDataset t

/-- The CHIP error codes that the embedded operations produce or propagate. -/
inductive ChipError : Type
  | CHIP_NO_ERROR
  | CHIP_ERROR_INVALID_MESSAGE_TYPE
  | CHIP_ERROR_IM_STATUS_CODE_RECEIVED
  | CHIP_ERROR_NOT_IMPLEMENTED
  | CHIP_ERROR_UNSUPPORTED_CHIP_FEATURE
  | CHIP_ERROR_NO_MEMORY
  | CHIP_ERROR_INTERNAL
  | CHIP_ERROR_INVALID_ARGUMENT
deriving DecidableEq, Repr

/-- One call into the platform network layer, recorded in issue order. -/
inductive PlatformCall : Type
  | setThreadEnabled (enabled : Bool)
  | setThreadProvision (dataset : Bytes)
  | provisionWiFi (ssid credentials : Bytes)
deriving DecidableEq, Repr

/-- The platform network collaborator: the result each platform call would
return (CHIP_NO_ERROR means the call succeeds). -/
structure PlatformOracle : Type where
  setThreadEnabled : Bool → ChipError
  setThreadProvision : Bytes → ChipError
  provisionWiFi : Bytes → Bytes → ChipError

/-- Embedding of DoConnectNetwork (network-commissioning.cpp lines 219-257) on
the thread-enabled, non-Linux, device-layer-target build.  Returns the CHIP
error, the network record after the call (mEnabled is set on success, nothing
else is written), and the platform calls issued, in order; ReturnErrorOnFailure
stops at the first failing call and propagates its error. -/
def DoConnectNetwork (oracle : PlatformOracle) (network : NetworkInfo) :
    ChipError × NetworkInfo × List PlatformCall :=
  match network.mNetworkType with
  | .kThread =>
    let e1 := oracle.setThreadEnabled false
    if e1 ≠ .CHIP_NO_ERROR then (e1, network, [.setThreadEnabled false]) else
    let e2 := oracle.setThreadProvision network.mData.mThread
    if e2 ≠ .CHIP_NO_ERROR then
      (e2, network, [.setThreadEnabled false, .setThreadProvision network.mData.mThread])
    else
    let e3 := oracle.setThreadEnabled true
    if e3 ≠ .CHIP_NO_ERROR then
      (e3, network,
       [.setThreadEnabled false, .setThreadProvision network.mData.mThread,
        .setThreadEnabled true])
    else
      (.CHIP_NO_ERROR, { network with mEnabled := true },
       [.setThreadEnabled false, .setThreadProvision network.mData.mThread,
        .setThreadEnabled true])
  | .kWiFi =>
    let e := oracle.provisionWiFi network.mData.mWiFi.mSSID network.mData.mWiFi.mCredentials
    if e ≠ .CHIP_NO_ERROR then
      (e, network, [.provisionWiFi network.mData.mWiFi.mSSID network.mData.mWiFi.mCredentials])
    else
      (.CHIP_NO_ERROR, { network with mEnabled := true },
       [.provisionWiFi network.mData.mWiFi.mSSID network.mData.mWiFi.mCredentials])
  | .kEthernet => (.CHIP_ERROR_NOT_IMPLEMENTED, network, [])
  | .kUndefined => (.CHIP_ERROR_NOT_IMPLEMENTED, network, [])

/-- The match condition of the scan loop in
OnConnectNetworkCommandCallbackInternal (network-commissioning.cpp lines
269-271): equal length fields, a non-kUndefined type, and memcmp equality of
the first networkID.size() bytes of the slot's id buffer. -/
def SlotMatches (slot : NetworkInfo) (networkID : Bytes) : Prop :=
  slot.mNetworkIDLen = networkID.length ∧ slot.mNetworkType ≠ .kUndefined ∧
    slot.mNetworkID.take networkID.length = networkID

instance (slot : NetworkInfo) (networkID : Bytes) : Decidable (SlotMatches slot networkID) :=
  inferInstanceAs (Decidable (_ ∧ _ ∧ _))

/-- The scan loop of OnConnectNetworkCommandCallbackInternal
(network-commissioning.cpp lines 267-279): err starts as kNetworkIDNotFound;
on the first matching slot, DoConnectNetwork runs and the loop exits with
kUnknownError on its failure or kSuccess on its success. -/
def connectLoop (oracle : PlatformOracle) (networkID : Bytes) :
    List NetworkInfo → NetworkCommissioningStatus × List NetworkInfo × List PlatformCall
  | [] => (.kNetworkIDNotFound, [], [])
  | slot :: rest =>
    if SlotMatches slot networkID then
      let r := DoConnectNetwork oracle slot
      if r.1 = .CHIP_NO_ERROR then (.kSuccess, r.2.1 :: rest, r.2.2)
      else (.kUnknownError, r.2.1 :: rest, r.2.2)
    else
      let r := connectLoop oracle networkID rest
      (r.1, slot :: r.2.1, r.2.2)

/-- The observable outcome of OnConnectNetworkCommandCallbackInternal: the
response networkingStatus, the table after the call, the platform calls
issued, and the argument of the ConnectNetworkForOperational notification
when it fired (none when it did not). -/
structure ConnectResult : Type where
  status : NetworkCommissioningStatus
  table : List NetworkInfo
  trace : List PlatformCall
  notified : Option Bytes
deriving DecidableEq, Repr

/-- Embedding of OnConnectNetworkCommandCallbackInternal
(network-commissioning.cpp lines 260-288): after the scan loop, the exit block
calls DeviceControlServer::ConnectNetworkForOperational(networkID) exactly
when err == kSuccess, then writes err into the response. -/
def OnConnectNetwork (oracle : PlatformOracle) (t : List NetworkInfo) (networkID : Bytes) :
    ConnectResult :=
  let r := connectLoop oracle networkID t
  { status := r.1
    table := r.2.1
    trace := r.2.2
    notified := if r.1 = .kSuccess then some networkID else none }

/-- Modelled from the spec: the per-exchange TimedInteractionWindow of the
Timed Interaction Guard, with its deadline in absolute milliseconds; the
Guard's check_window operation and the window record are not among the given
sources (src/app/TimedRequest.cpp holds only the announcement send and the
acknowledgement handling). -/
structure TimedInteractionWindow : Type where
  exchange_id : Nat
  deadline : Nat
deriving DecidableEq, Repr

/-- Outcome of checking a TimedInteractionWindow. -/
inductive WindowCheck : Type
  | ok
  | expired
deriving DecidableEq, Repr

/-- Modelled from the spec: check_window(exchange_id, now) returns Expired
if now > deadline, and success otherwise. -/
def check_window (w : TimedInteractionWindow) (now : Nat) : WindowCheck :=
  if w.deadline < now then .expired else .ok

/-- The interaction-model message types relevant to TimedRequest. -/
inductive MsgType : Type
  | TimedRequest
  | StatusResponse
  | InvokeCommandRequest
  | ReportData
deriving DecidableEq, Repr

/-- The payload header of a received message, as consulted by
TimedRequest::HandleResponse through HasMessageType. -/
structure PayloadHeader : Type where
  msgType : MsgType
deriving DecidableEq, Repr

/-- PayloadHeader::HasMessageType. -/
def PayloadHeader.HasMessageType (h : PayloadHeader) (t : MsgType) : Bool :=
  h.msgType = t

/-- The interaction-model status carried by a StatusResponse (Status::Success
against the failure codes relevant here). -/
inductive IMStatus : Type
  | Success
  | Failure
  | Busy
  | InvalidCommand
deriving DecidableEq, Repr

/-- Embedding of TimedRequest::HandleResponse (TimedRequest.cpp lines 56-66).
The received payload is given by its decoding outcome: .ok s when
StatusResponse::ProcessStatusResponse (modelled from the spec, its source is
not among the given files) decodes the status s, .error e when decoding fails
with e.  The function first checks the message type, then propagates a decode
failure, then maps a non-Success status to CHIP_ERROR_IM_STATUS_CODE_RECEIVED. -/
def TimedRequest.HandleResponse (aPayloadHeader : PayloadHeader)
    (aPayload : Except ChipError IMStatus) : ChipError :=
  if ¬ aPayloadHeader.HasMessageType .StatusResponse then .CHIP_ERROR_INVALID_MESSAGE_TYPE
  else
    match aPayload with
    | .error e => e
    | .ok s =>
      if ¬ s = .Success then .CHIP_ERROR_IM_STATUS_CODE_RECEIVED
      else .CHIP_NO_ERROR

/-- The slot state written by a fully successful pass of the WiFi loop body:
both WiFi payload fields, the network id (the SSID bytes), its length, the
kWiFi tag and the cleared enabled flag. -/
def wifiWritten (slot : NetworkInfo) (ssid credentials : Bytes) : NetworkInfo :=
  { mNetworkID := memcpyInto slot.mNetworkID ssid
    mNetworkIDLen := ssid.length
    mEnabled := false
    mNetworkType := .kWiFi
    mData :=
      { mThread := slot.mData.mThread
        mWiFi :=
          { mSSID := memcpyInto slot.mData.mWiFi.mSSID ssid
            mSSIDLen := ssid.length
            mCredentials := memcpyInto slot.mData.mWiFi.mCredentials credentials
            mCredentialsLen := credentials.length } } }

theorem wifiWriteSlot_success (slot : NetworkInfo) (ssid credentials : Bytes)
    (hs : ssid.length ≤ kMaxWiFiSSIDLen) (hc : credentials.length ≤ kMaxWiFiCredentialsLen) :
    wifiWriteSlot slot ssid credentials = (.kSuccess, wifiWritten slot ssid credentials) := by
  have h33 : ssid.length ≤ kMaxWiFiSSIDLen + 1 := Nat.le_succ_of_le hs
  have h255 : ssid.length ≤ 255 := by unfold kMaxWiFiSSIDLen at hs; omega
  have hn : ssid.length ≤ kMaxNetworkIDLen := by
    unfold kMaxWiFiSSIDLen at hs; unfold kMaxNetworkIDLen; omega
  simp [wifiWriteSlot, wifiWritten, h33, h255, hs, hc, hn, memcpyInto, List.take_left]

theorem wifiWriteSlot_outOfRange (slot : NetworkInfo) (ssid credentials : Bytes)
    (h : kMaxWiFiSSIDLen < ssid.length ∨ kMaxWiFiCredentialsLen < credentials.length) :
    (wifiWriteSlot slot ssid credentials).1 = .kOutOfRange ∧
    (wifiWriteSlot slot ssid credentials).2.mNetworkID = slot.mNetworkID ∧
    (wifiWriteSlot slot ssid credentials).2.mNetworkIDLen = slot.mNetworkIDLen ∧
    (wifiWriteSlot slot ssid credentials).2.mNetworkType = slot.mNetworkType ∧
    (wifiWriteSlot slot ssid credentials).2.mEnabled = slot.mEnabled := by
  unfold kMaxWiFiSSIDLen kMaxWiFiCredentialsLen at h
  by_cases h33 : ssid.length ≤ kMaxWiFiSSIDLen + 1
  · have h255 : ssid.length ≤ 255 := by unfold kMaxWiFiSSIDLen at h33; omega
    by_cases hc : credentials.length ≤ kMaxWiFiCredentialsLen
    · have hn : ¬ ssid.length ≤ kMaxNetworkIDLen := by
        unfold kMaxWiFiCredentialsLen at hc
        unfold kMaxWiFiSSIDLen at h33
        unfold kMaxNetworkIDLen
        omega
      simp [wifiWriteSlot, h33, h255, hc, hn]
    · simp [wifiWriteSlot, h33, h255, hc]
  · simp [wifiWriteSlot, h33]

theorem addWiFiLoop_noUndefined (ssid credentials : Bytes) (t : List NetworkInfo)
    (h : ∀ s ∈ t, s.mNetworkType ≠ .kUndefined) :
    addWiFiLoop ssid credentials t = (.kBoundsExceeded, t) := by
  induction t with
  | nil => rfl
  | cons a t ih =>
    have ha : ¬ a.mNetworkType = .kUndefined := h a (by simp)
    have ht : ∀ s ∈ t, s.mNetworkType ≠ .kUndefined := fun s hs => h s (by simp [hs])
    simp [addWiFiLoop, ha, ih ht]

theorem addWiFiLoop_firstfit (ssid credentials : Bytes) (d r : List NetworkInfo)
    (u : NetworkInfo) (hd : ∀ s ∈ d, s.mNetworkType ≠ .kUndefined)
    (hu : u.mNetworkType = .kUndefined) :
    addWiFiLoop ssid credentials (d ++ u :: r) =
      ((wifiWriteSlot u ssid credentials).1, d ++ (wifiWriteSlot u ssid credentials).2 :: r) := by
  induction d with
  | nil => simp [addWiFiLoop, hu]
  | cons a d ih =>
    have ha : ¬ a.mNetworkType = .kUndefined := hd a (by simp)
    have hd2 : ∀ s ∈ d, s.mNetworkType ≠ .kUndefined := fun s hs => hd s (by simp [hs])
    simp [addWiFiLoop, ha, ih hd2]

theorem list_first_undefined (t : List NetworkInfo)
    (h : ∃ s ∈ t, s.mNetworkType = .kUndefined) :
    ∃ d u r, t = d ++ u :: r ∧ (∀ s ∈ d, s.mNetworkType ≠ .kUndefined) ∧
      u.mNetworkType = .kUndefined := by
  induction t with
  | nil => simp at h
  | cons a t ih =>
    by_cases ha : a.mNetworkType = .kUndefined
    · exact ⟨[], a, t, rfl, by simp, ha⟩
    · obtain ⟨s, hs, hst⟩ := h
      rcases List.mem_cons.mp hs with rfl | hmem
      · exact absurd hst ha
      · obtain ⟨d, u, r, rfl, hd, hu⟩ := ih ⟨s, hmem, hst⟩
        exact ⟨a :: d, u, r, rfl, by
          intro x hx
          rcases List.mem_cons.mp hx with rfl | hx2
          · exact ha
          · exact hd x hx2, hu⟩

/-- C1 counterexample: adding a 33-byte SSID to the zero-initialized table
answers kOutOfRange as the claim says, yet the table is not left entirely
unmutated: the 33 SSID bytes were already copied into the first slot's WiFi
payload buffer before the 32-byte network-id bound failed, so the claim's
all-or-nothing conjunct is false at this input. -/
theorem wifi_add_oversize_mutates_payload :
    (OnAddOrUpdateWiFiNetwork sNetworksInit (List.replicate 33 1) [2]).1 = .kOutOfRange ∧
    (OnAddOrUpdateWiFiNetwork sNetworksInit (List.replicate 33 1) [2]).2 ≠ sNetworksInit := by
  decide

/-- C1 (amended): a WiFi add whose ssid exceeds 32 bytes or whose credentials
exceed 64 bytes, issued while the table still has an Undefined slot, responds
kOutOfRange, leaves every slot's network_type (so no slot is consumed),
network-id bytes, network-id length and enabled flag unchanged; only the WiFi
payload scratch bytes of the first Undefined slot may have been written. -/
theorem wifi_add_oversize_rejected (t : List NetworkInfo) (ssid credentials : Bytes)
    (hviol : kMaxWiFiSSIDLen < ssid.length ∨ kMaxWiFiCredentialsLen < credentials.length)
    (hu : ∃ s ∈ t, s.mNetworkType = .kUndefined) :
    (OnAddOrUpdateWiFiNetwork t ssid credentials).1 = .kOutOfRange ∧
    (OnAddOrUpdateWiFiNetwork t ssid credentials).2.map NetworkInfo.mNetworkType =
      t.map NetworkInfo.mNetworkType ∧
    (OnAddOrUpdateWiFiNetwork t ssid credentials).2.map NetworkInfo.mNetworkID =
      t.map NetworkInfo.mNetworkID ∧
    (OnAddOrUpdateWiFiNetwork t ssid credentials).2.map NetworkInfo.mNetworkIDLen =
      t.map NetworkInfo.mNetworkIDLen ∧
    (OnAddOrUpdateWiFiNetwork t ssid credentials).2.map NetworkInfo.mEnabled =
      t.map NetworkInfo.mEnabled := by
  obtain ⟨d, u, r, rfl, hd, hundef⟩ := list_first_undefined t hu
  obtain ⟨h1, h2, h3, h4, h5⟩ := wifiWriteSlot_outOfRange u ssid credentials hviol
  unfold OnAddOrUpdateWiFiNetwork
  rw [addWiFiLoop_firstfit ssid credentials d r u hd hundef]
  simp [h1, h2, h3, h4, h5]

/-- Witness for the amended C1 at a concrete input: a 33-byte SSID into the
zero-initialized table. -/
theorem wifi_add_oversize_rejected_ex :
    (OnAddOrUpdateWiFiNetwork sNetworksInit (List.replicate 33 1) [2]).1 = .kOutOfRange ∧
    (OnAddOrUpdateWiFiNetwork sNetworksInit (List.replicate 33 1) [2]).2.map
        NetworkInfo.mNetworkType =
      sNetworksInit.map NetworkInfo.mNetworkType := by
  have h := wifi_add_oversize_rejected sNetworksInit (List.replicate 33 1) [2]
    (Or.inl (by decide)) ⟨emptySlot, by decide, rfl⟩
  exact ⟨h.1, h.2.1⟩

/-- C2: the Timed Interaction Guard window (modelled from the spec, as only
its announcement half exists in the sources) reports Expired, yet both add
callbacks — which receive a timeoutMs argument and never consult any window —
still mutate the table and answer kSuccess.  The code performs no guard check
at all on the mutation paths. -/
theorem timed_window_not_consulted :
    check_window { exchange_id := 1, deadline := 50 } 60 = .expired ∧
    (OnAddOrUpdateWiFiNetwork sNetworksInit [7] [8]).1 = .kSuccess ∧
    (OnAddOrUpdateWiFiNetwork sNetworksInit [7] [8]).2.map NetworkInfo.mNetworkType ≠
      sNetworksInit.map NetworkInfo.mNetworkType ∧
    (OnAddOrUpdateThreadNetwork sNetworksInit [2, 8, 1, 2, 3, 4, 5, 6, 7, 8]).1 = .kSuccess ∧
    (OnAddOrUpdateThreadNetwork sNetworksInit [2, 8, 1, 2, 3, 4, 5, 6, 7, 8]).2.map
        NetworkInfo.mNetworkType ≠
      sNetworksInit.map NetworkInfo.mNetworkType := by
  decide

/-- C9: adding the same SSID and credentials twice, into a table whose first
two Undefined slots are u1 and u2, succeeds both times, writes the two
distinct slots at positions d1.length and d1.length + d2.length + 1, and both
resulting profiles carry the identical network id (the SSID bytes, with equal
stored length): add performs no uniqueness check and no in-place update. -/
theorem duplicate_ssid_two_slots (d1 d2 r : List NetworkInfo) (u1 u2 : NetworkInfo)
    (ssid credentials : Bytes)
    (hd1 : ∀ s ∈ d1, s.mNetworkType ≠ .kUndefined)
    (hd2 : ∀ s ∈ d2, s.mNetworkType ≠ .kUndefined)
    (hu1 : u1.mNetworkType = .kUndefined) (hu2 : u2.mNetworkType = .kUndefined)
    (hs : ssid.length ≤ kMaxWiFiSSIDLen) (hc : credentials.length ≤ kMaxWiFiCredentialsLen) :
    OnAddOrUpdateWiFiNetwork (d1 ++ u1 :: (d2 ++ u2 :: r)) ssid credentials =
      (.kSuccess, d1 ++ wifiWritten u1 ssid credentials :: (d2 ++ u2 :: r)) ∧
    OnAddOrUpdateWiFiNetwork (d1 ++ wifiWritten u1 ssid credentials :: (d2 ++ u2 :: r))
        ssid credentials =
      (.kSuccess,
       d1 ++ wifiWritten u1 ssid credentials ::
         (d2 ++ wifiWritten u2 ssid credentials :: r)) ∧
    (d1 ++ wifiWritten u1 ssid credentials ::
        (d2 ++ wifiWritten u2 ssid credentials :: r))[d1.length]? =
      some (wifiWritten u1 ssid credentials) ∧
    (d1 ++ wifiWritten u1 ssid credentials ::
        (d2 ++ wifiWritten u2 ssid credentials :: r))[d1.length + d2.length + 1]? =
      some (wifiWritten u2 ssid credentials) ∧
    d1.length ≠ d1.length + d2.length + 1 ∧
    (wifiWritten u1 ssid credentials).mNetworkType = .kWiFi ∧
    (wifiWritten u2 ssid credentials).mNetworkType = .kWiFi ∧
    (wifiWritten u1 ssid credentials).mNetworkIDLen =
      (wifiWritten u2 ssid credentials).mNetworkIDLen ∧
    (wifiWritten u1 ssid credentials).mNetworkID.take ssid.length = ssid ∧
    (wifiWritten u2 ssid credentials).mNetworkID.take ssid.length = ssid := by
  have hw := wifiWriteSlot_success u1 ssid credentials hs hc
  have hw2 := wifiWriteSlot_success u2 ssid credentials hs hc
  have hfit1 := addWiFiLoop_firstfit ssid credentials d1 (d2 ++ u2 :: r) u1 hd1 hu1
  have hclean : ∀ s ∈ d1 ++ wifiWritten u1 ssid credentials :: d2,
      s.mNetworkType ≠ .kUndefined := by
    intro s hmem
    rcases List.mem_append.mp hmem with h | h
    · exact hd1 s h
    · rcases List.mem_cons.mp h with rfl | h2
      · simp [wifiWritten]
      · exact hd2 s h2
  have hfit2 := addWiFiLoop_firstfit ssid credentials
    (d1 ++ wifiWritten u1 ssid credentials :: d2) r u2 hclean hu2
  refine ⟨?_, ?_, ?_, ?_, by omega, by simp [wifiWritten], by simp [wifiWritten],
    by simp [wifiWritten], ?_, ?_⟩
  · unfold OnAddOrUpdateWiFiNetwork
    rw [hfit1, hw]
  · unfold OnAddOrUpdateWiFiNetwork
    have hassoc : d1 ++ wifiWritten u1 ssid credentials :: (d2 ++ u2 :: r) =
        (d1 ++ wifiWritten u1 ssid credentials :: d2) ++ u2 :: r := by simp
    rw [hassoc, hfit2, hw2]
    simp
  · rw [List.getElem?_append_right (Nat.le_refl d1.length)]
    simp
  · rw [List.getElem?_append_right (by omega : d1.length ≤ d1.length + d2.length + 1)]
    simp only [show d1.length + d2.length + 1 - d1.length = d2.length + 1 from by omega]
    rw [List.getElem?_cons_succ,
      List.getElem?_append_right (Nat.le_refl d2.length)]
    simp
  · simp [wifiWritten, memcpyInto, List.take_left]
  · simp [wifiWritten, memcpyInto, List.take_left]

/-- Witness for C9 at a concrete input: the zero-initialized table's first two
slots. -/
theorem duplicate_ssid_two_slots_ex :
    OnAddOrUpdateWiFiNetwork
        ([] ++ emptySlot :: ([] ++ emptySlot :: [emptySlot, emptySlot])) [5, 6] [7] =
      (.kSuccess,
       [] ++ wifiWritten emptySlot [5, 6] [7] :: ([] ++ emptySlot :: [emptySlot, emptySlot])) ∧
    (wifiWritten emptySlot [5, 6] [7]).mNetworkID.take ([5, 6] : Bytes).length = [5, 6] := by
  have h := duplicate_ssid_two_slots [] [] [emptySlot, emptySlot] emptySlot emptySlot
    [5, 6] [7] (by simp) (by simp) rfl rfl (by decide) (by decide)
  exact ⟨h.1, h.2.2.2.2.2.2.2.2.1⟩

/-- The slot state written by a fully successful pass of the Thread loop body:
the stored dataset, the extended PAN ID as network id with length 8, the
kThread tag and the cleared enabled flag. -/
def threadWritten (slot : NetworkInfo) (dataset extendedPanId : Bytes) : NetworkInfo :=
  { mNetworkID := memcpyInto slot.mNetworkID extendedPanId
    mNetworkIDLen := kSizeExtendedPanId
    mEnabled := false
    mNetworkType := .kThread
    mData :=
      { mThread := dataset
        mWiFi := slot.mData.mWiFi } }

theorem addThreadLoop_noUndefined (dataset : Bytes) (t : List NetworkInfo)
    (h : ∀ s ∈ t, s.mNetworkType ≠ .kUndefined) :
    addThreadLoop dataset t = (.kBoundsExceeded, t) := by
  induction t with
  | nil => rfl
  | cons a t ih =>
    have ha : ¬ a.mNetworkType = .kUndefined := h a (by simp)
    have ht : ∀ s ∈ t, s.mNetworkType ≠ .kUndefined := fun s hs => h s (by simp [hs])
    simp [addThreadLoop, ha, ih ht]

theorem addThreadLoop_initFail (dataset : Bytes) (d r : List NetworkInfo) (u : NetworkInfo)
    (hd : ∀ s ∈ d, s.mNetworkType ≠ .kUndefined) (hu : u.mNetworkType = .kUndefined)
    (hfail : OperationalDataset.Init dataset = none) :
    addThreadLoop dataset (d ++ u :: r) = (.kUnknownError, d ++ u :: r) := by
  induction d with
  | nil => simp [addThreadLoop, hu, hfail]
  | cons a d ih =>
    have ha : ¬ a.mNetworkType = .kUndefined := hd a (by simp)
    have hd2 : ∀ s ∈ d, s.mNetworkType ≠ .kUndefined := fun s hs => hd s (by simp [hs])
    simp [addThreadLoop, ha, ih hd2]

theorem addThreadLoop_noPanId (dataset : Bytes) (d r : List NetworkInfo) (u : NetworkInfo)
    (hd : ∀ s ∈ d, s.mNetworkType ≠ .kUndefined) (hu : u.mNetworkType = .kUndefined)
    (hinit : OperationalDataset.Init dataset = some dataset)
    (hnopan : GetExtendedPanId dataset = none) :
    addThreadLoop dataset (d ++ u :: r) =
      (.kBoundsExceeded,
       d ++ { u with mData := { u.mData with mThread := dataset } } :: r) := by
  induction d with
  | nil => simp [addThreadLoop, hu, hinit, hnopan]
  | cons a d ih =>
    have ha : ¬ a.mNetworkType = .kUndefined := hd a (by simp)
    have hd2 : ∀ s ∈ d, s.mNetworkType ≠ .kUndefined := fun s hs => hd s (by simp [hs])
    simp [addThreadLoop, ha, ih hd2]

theorem addThreadLoop_success (dataset extendedPanId : Bytes) (d r : List NetworkInfo)
    (u : NetworkInfo)
    (hd : ∀ s ∈ d, s.mNetworkType ≠ .kUndefined) (hu : u.mNetworkType = .kUndefined)
    (hinit : OperationalDataset.Init dataset = some dataset)
    (hpan : GetExtendedPanId dataset = some extendedPanId) :
    addThreadLoop dataset (d ++ u :: r) =
      (.kSuccess, d ++ threadWritten u dataset extendedPanId :: r) := by
  induction d with
  | nil => simp [addThreadLoop, hu, hinit, hpan, threadWritten]
  | cons a d ih =>
    have ha : ¬ a.mNetworkType = .kUndefined := hd a (by simp)
    have hd2 : ∀ s ∈ d, s.mNetworkType ≠ .kUndefined := fun s hs => hd s (by simp [hs])
    simp [addThreadLoop, ha, ih hd2]

theorem Init_of_some (dataset stored : Bytes)
    (h : OperationalDataset.Init dataset = some stored) : stored = dataset := by
  unfold OperationalDataset.Init at h
  by_cases hc : dataset.length ≤ kMaxThreadDatasetLen ∧ (parseThreadTLVs dataset).isSome
  · simp [hc] at h
    exact h.symm
  · simp [hc] at h

/-- C5 counterexample: the two-byte dataset tag 5, length 0 parses as a valid
TLV sequence (so Init succeeds) but carries no extended-PAN-ID TLV, and the
add answers kBoundsExceeded — not kOutOfRange and not kUnknownError as the
claim requires — because SuccessOrExit leaves the loop with err still holding
its kBoundsExceeded initializer. -/
theorem thread_add_no_panid_bounds_exceeded :
    (OnAddOrUpdateThreadNetwork sNetworksInit [5, 0]).1 ≠ .kOutOfRange ∧
    (OnAddOrUpdateThreadNetwork sNetworksInit [5, 0]).1 ≠ .kUnknownError ∧
    (OnAddOrUpdateThreadNetwork sNetworksInit [5, 0]).1 = .kBoundsExceeded := by
  decide

/-- C5 (amended): a Thread add whose dataset is malformed — Init fails to
parse it, or it parses but the extended PAN ID cannot be extracted — issued
while the table still has an Undefined slot, responds kUnknownError in the
first case and kBoundsExceeded in the second, and in both cases leaves every
slot's network_type (no slot is consumed), network-id bytes, network-id
length and enabled flag unchanged. -/
theorem thread_add_malformed_rejected (t : List NetworkInfo) (dataset : Bytes)
    (hu : ∃ s ∈ t, s.mNetworkType = .kUndefined)
    (hbad : OperationalDataset.Init dataset = none ∨ GetExtendedPanId dataset = none) :
    ((OperationalDataset.Init dataset = none →
        (OnAddOrUpdateThreadNetwork t dataset).1 = .kUnknownError) ∧
     (OperationalDataset.Init dataset = some dataset →
        (OnAddOrUpdateThreadNetwork t dataset).1 = .kBoundsExceeded)) ∧
    (OnAddOrUpdateThreadNetwork t dataset).2.map NetworkInfo.mNetworkType =
      t.map NetworkInfo.mNetworkType ∧
    (OnAddOrUpdateThreadNetwork t dataset).2.map NetworkInfo.mNetworkID =
      t.map NetworkInfo.mNetworkID ∧
    (OnAddOrUpdateThreadNetwork t dataset).2.map NetworkInfo.mNetworkIDLen =
      t.map NetworkInfo.mNetworkIDLen ∧
    (OnAddOrUpdateThreadNetwork t dataset).2.map NetworkInfo.mEnabled =
      t.map NetworkInfo.mEnabled := by
  obtain ⟨d, u, r, rfl, hd, hundef⟩ := list_first_undefined t hu
  unfold OnAddOrUpdateThreadNetwork
  rcases hinit : OperationalDataset.Init dataset with _ | stored
  · rw [addThreadLoop_initFail dataset d r u hd hundef hinit]
    simp
  · have heq := Init_of_some dataset stored hinit
    rw [heq] at hinit
    have hnopan : GetExtendedPanId dataset = none := by
      rcases hbad with h | h
      · rw [hinit] at h
        exact absurd h (by simp)
      · exact h
    rw [addThreadLoop_noPanId dataset d r u hd hundef hinit hnopan]
    simp

/-- Witness for the amended C5 at concrete inputs: an unparseable one-byte
dataset and a parseable dataset with no extended PAN ID, both into the
zero-initialized table. -/
theorem thread_add_malformed_rejected_ex :
    (OnAddOrUpdateThreadNetwork sNetworksInit [1]).1 = .kUnknownError ∧
    (OnAddOrUpdateThreadNetwork sNetworksInit [5, 0]).1 = .kBoundsExceeded ∧
    (OnAddOrUpdateThreadNetwork sNetworksInit [5, 0]).2.map NetworkInfo.mNetworkType =
      sNetworksInit.map NetworkInfo.mNetworkType := by
  have h1 := thread_add_malformed_rejected sNetworksInit [1]
    ⟨emptySlot, by decide, rfl⟩ (Or.inl (by decide))
  have h2 := thread_add_malformed_rejected sNetworksInit [5, 0]
    ⟨emptySlot, by decide, rfl⟩ (Or.inr (by decide))
  exact ⟨h1.1.1 (by decide), h2.1.2 (by decide), h2.2.1⟩

/-- One add operation of the commissioning command surface: an AddOrUpdate
WiFiNetwork or an AddOrUpdateThreadNetwork invocation with its inputs. -/
inductive AddOp : Type
  | wifi (ssid credentials : Bytes)
  | thread (dataset : Bytes)
deriving DecidableEq, Repr

/-- Dispatch of one add operation to the corresponding embedded callback. -/
def applyAdd (t : List NetworkInfo) : AddOp → NetworkCommissioningStatus × List NetworkInfo
  | .wifi ssid credentials => OnAddOrUpdateWiFiNetwork t ssid credentials
  | .thread dataset => OnAddOrUpdateThreadNetwork t dataset

/-- An add operation whose inputs pass every validation of the corresponding
callback: in-range SSID and credentials for WiFi, a dataset accepted by Init
and carrying an extractable extended PAN ID for Thread. -/
def ValidAdd : AddOp → Prop
  | .wifi ssid credentials =>
      ssid.length ≤ kMaxWiFiSSIDLen ∧ credentials.length ≤ kMaxWiFiCredentialsLen
  | .thread dataset =>
      OperationalDataset.Init dataset = some dataset ∧ (GetExtendedPanId dataset).isSome

/-- A sequence of add operations run left to right, collecting the response
status of each and the final table. -/
def runAdds : List NetworkInfo → List AddOp →
    List NetworkCommissioningStatus × List NetworkInfo
  | t, [] => ([], t)
  | t, op :: ops =>
    let r := applyAdd t op
    let r2 := runAdds r.2 ops
    (r.1 :: r2.1, r2.2)

/-- The slot produced when a valid add writes an Undefined slot. -/
def addWritten (op : AddOp) (slot : NetworkInfo) : NetworkInfo :=
  match op with
  | .wifi ssid credentials => wifiWritten slot ssid credentials
  | .thread dataset =>
    match GetExtendedPanId dataset with
    | some extendedPanId => threadWritten slot dataset extendedPanId
    | none => slot

theorem applyAdd_noUndefined (t : List NetworkInfo) (op : AddOp)
    (h : ∀ s ∈ t, s.mNetworkType ≠ .kUndefined) : applyAdd t op = (.kBoundsExceeded, t) := by
  cases op with
  | wifi ssid credentials =>
    exact addWiFiLoop_noUndefined ssid credentials t h
  | thread dataset =>
    exact addThreadLoop_noUndefined dataset t h

theorem applyAdd_firstfit (op : AddOp) (d r : List NetworkInfo) (u : NetworkInfo)
    (hd : ∀ s ∈ d, s.mNetworkType ≠ .kUndefined) (hu : u.mNetworkType = .kUndefined)
    (hv : ValidAdd op) :
    applyAdd (d ++ u :: r) op = (.kSuccess, d ++ addWritten op u :: r) := by
  cases op with
  | wifi ssid credentials =>
    obtain ⟨hs, hc⟩ := hv
    show OnAddOrUpdateWiFiNetwork (d ++ u :: r) ssid credentials = _
    unfold OnAddOrUpdateWiFiNetwork
    rw [addWiFiLoop_firstfit ssid credentials d r u hd hu,
      wifiWriteSlot_success u ssid credentials hs hc]
    rfl
  | thread dataset =>
    obtain ⟨hinit, hpan⟩ := hv
    obtain ⟨extendedPanId, hp⟩ := Option.isSome_iff_exists.mp hpan
    show OnAddOrUpdateThreadNetwork (d ++ u :: r) dataset = _
    unfold OnAddOrUpdateThreadNetwork
    rw [addThreadLoop_success dataset extendedPanId d r u hd hu hinit hp]
    simp [addWritten, hp]

theorem addWritten_defined (op : AddOp) (u : NetworkInfo) (hv : ValidAdd op) :
    (addWritten op u).mNetworkType ≠ .kUndefined := by
  cases op with
  | wifi ssid credentials => simp [addWritten, wifiWritten]
  | thread dataset =>
    obtain ⟨hinit, hpan⟩ := hv
    obtain ⟨extendedPanId, hp⟩ := Option.isSome_iff_exists.mp hpan
    simp [addWritten, hp, threadWritten]

theorem runAdds_fill (ops : List AddOp) (d : List NetworkInfo) (k : Nat)
    (hd : ∀ s ∈ d, s.mNetworkType ≠ .kUndefined)
    (hops : ∀ op ∈ ops, ValidAdd op) (hlen : ops.length ≤ k) :
    ∃ d2, runAdds (d ++ List.replicate k emptySlot) ops =
        (List.replicate ops.length .kSuccess,
         d2 ++ List.replicate (k - ops.length) emptySlot) ∧
      d2.length = d.length + ops.length ∧ ∀ s ∈ d2, s.mNetworkType ≠ .kUndefined := by
  induction ops generalizing d k with
  | nil => exact ⟨d, by simp [runAdds], by simp, hd⟩
  | cons op ops ih =>
    obtain ⟨k2, rfl⟩ : ∃ k2, k = k2 + 1 := ⟨k - 1, by simp at hlen; omega⟩
    have hvop : ValidAdd op := hops op (by simp)
    have hfit := applyAdd_firstfit op d (List.replicate k2 emptySlot) emptySlot hd rfl hvop
    have hdnew : ∀ s ∈ d ++ [addWritten op emptySlot], s.mNetworkType ≠ .kUndefined := by
      intro s hs
      rcases List.mem_append.mp hs with h | h
      · exact hd s h
      · rcases List.mem_cons.mp h with rfl | h2
        · exact addWritten_defined op emptySlot hvop
        · simp at h2
    obtain ⟨d2, heq, hlen2, hdef2⟩ := ih (d ++ [addWritten op emptySlot]) k2 hdnew
      (fun op2 h => hops op2 (by simp [h])) (by simp at hlen ⊢; omega)
    refine ⟨d2, ?_, by simp at hlen2 ⊢; omega, hdef2⟩
    have hrep : List.replicate (k2 + 1) emptySlot =
        emptySlot :: List.replicate k2 emptySlot := rfl
    have hassoc : d ++ addWritten op emptySlot :: List.replicate k2 emptySlot =
        (d ++ [addWritten op emptySlot]) ++ List.replicate k2 emptySlot := by simp
    simp only [runAdds, hrep, hfit, hassoc, heq]
    simp [List.replicate_succ]

/-- C3: starting from the zero-initialized table, any sequence of at most
kMaxNetworks valid adds answers kSuccess at every step and fills exactly the
first slots (slot j is occupied precisely for j below the number of adds, so
every add consumed a distinct fresh slot), and any add against a table with
no Undefined slot answers kBoundsExceeded and returns the table unchanged. -/
theorem capacity_invariant (ops : List AddOp)
    (h1 : ops.length ≤ kMaxNetworks) (h2 : ∀ op ∈ ops, ValidAdd op) :
    (runAdds sNetworksInit ops).1 = List.replicate ops.length .kSuccess ∧
    (∀ j, j < kMaxNetworks →
      ((((runAdds sNetworksInit ops).2)[j]?).map NetworkInfo.mNetworkType ≠
          some .kUndefined ↔ j < ops.length)) ∧
    ∀ t op, (∀ s ∈ t, s.mNetworkType ≠ .kUndefined) →
      applyAdd t op = (.kBoundsExceeded, t) := by
  obtain ⟨d2, heq, hlen2, hdef2⟩ := runAdds_fill ops [] kMaxNetworks (by simp) h2 h1
  simp only [List.nil_append] at heq
  have hinit : sNetworksInit = List.replicate kMaxNetworks emptySlot := rfl
  rw [hinit, heq]
  simp only [List.length_nil, Nat.zero_add] at hlen2
  refine ⟨rfl, ?_, fun t op h => applyAdd_noUndefined t op h⟩
  intro j hj
  by_cases hlt : j < ops.length
  · rw [List.getElem?_append_left (by omega)]
    have hsome : d2[j]? = some d2[j] := List.getElem?_eq_getElem (by omega)
    rw [hsome]
    have hmem : d2[j] ∈ d2 := List.getElem_mem (by omega)
    simp only [Option.map_some']
    exact ⟨fun _ => hlt, fun _ hcontra => hdef2 _ hmem (Option.some.inj hcontra)⟩
  · rw [List.getElem?_append_right (by omega)]
    have hjlt : j - d2.length < kMaxNetworks - ops.length := by
      unfold kMaxNetworks at hj ⊢
      omega
    rw [List.getElem?_replicate]
    simp [hjlt, hlt, emptySlot]

/-- Witness for C3 at a concrete input: four valid adds (three WiFi, one
Thread) all succeed and fill the table; the already-full table then refuses a
fifth add with kBoundsExceeded, unchanged. -/
theorem capacity_invariant_ex :
    (runAdds sNetworksInit
        [.wifi [1] [2], .wifi [3] [4], .thread [2, 8, 1, 2, 3, 4, 5, 6, 7, 8],
         .wifi [5] [6]]).1 =
      List.replicate 4 .kSuccess ∧
    ((((runAdds sNetworksInit
        [.wifi [1] [2], .wifi [3] [4], .thread [2, 8, 1, 2, 3, 4, 5, 6, 7, 8],
         .wifi [5] [6]]).2)[3]?).map NetworkInfo.mNetworkType ≠ some .kUndefined ↔
      (3 : Nat) < 4) := by
  have h := capacity_invariant
    [.wifi [1] [2], .wifi [3] [4], .thread [2, 8, 1, 2, 3, 4, 5, 6, 7, 8], .wifi [5] [6]]
    (by decide)
    (by
      intro op hop
      fin_cases hop
      · exact ⟨by decide, by decide⟩
      · exact ⟨by decide, by decide⟩
      · exact ⟨by decide, by decide⟩
      · exact ⟨by decide, by decide⟩)
  exact ⟨h.1, h.2.1 3 (by decide)⟩

/-- A platform oracle whose calls all succeed. -/
def oracleOk : PlatformOracle :=
  { setThreadEnabled := fun _ => .CHIP_NO_ERROR
    setThreadProvision := fun _ => .CHIP_NO_ERROR
    provisionWiFi := fun _ _ => .CHIP_NO_ERROR }

/-- A platform oracle whose SetThreadProvision call fails. -/
def oracleProvisionFails : PlatformOracle :=
  { setThreadEnabled := fun _ => .CHIP_NO_ERROR
    setThreadProvision := fun _ => .CHIP_ERROR_INTERNAL
    provisionWiFi := fun _ _ => .CHIP_NO_ERROR }

/-- A platform oracle whose ProvisionWiFi call fails. -/
def oracleWiFiFails : PlatformOracle :=
  { setThreadEnabled := fun _ => .CHIP_NO_ERROR
    setThreadProvision := fun _ => .CHIP_NO_ERROR
    provisionWiFi := fun _ _ => .CHIP_ERROR_INTERNAL }

/-- A stored Thread profile used as a concrete witness input. -/
def threadSlotEx : NetworkInfo :=
  threadWritten emptySlot [2, 8, 1, 2, 3, 4, 5, 6, 7, 8] [1, 2, 3, 4, 5, 6, 7, 8]

/-- A stored Ethernet profile with network id the single byte 9, used as a
concrete witness input (no add path of this file produces Ethernet profiles,
but the table may hold them and connect dispatches on them). -/
def ethSlotEx : NetworkInfo :=
  { mNetworkID := memcpyInto emptySlot.mNetworkID [9]
    mNetworkIDLen := 1
    mEnabled := false
    mNetworkType := .kEthernet
    mData := emptySlot.mData }

/-- C4: connecting a Thread profile issues the platform calls in exactly the
order disable radio, apply provision, re-enable radio; when every call
succeeds the trace is exactly those three calls and the profile is enabled;
when the apply-provision call fails the trace stops at it — the re-enable
call is never issued, so the last radio-state call issued is the disable —
and the profile is returned unchanged; when the disable call fails nothing
further is issued. -/
theorem thread_connect_ordering (oracle : PlatformOracle) (network : NetworkInfo)
    (h : network.mNetworkType = .kThread) :
    (oracle.setThreadEnabled false = .CHIP_NO_ERROR →
      oracle.setThreadProvision network.mData.mThread = .CHIP_NO_ERROR →
      oracle.setThreadEnabled true = .CHIP_NO_ERROR →
      DoConnectNetwork oracle network =
        (.CHIP_NO_ERROR, { network with mEnabled := true },
         [.setThreadEnabled false, .setThreadProvision network.mData.mThread,
          .setThreadEnabled true])) ∧
    (oracle.setThreadEnabled false = .CHIP_NO_ERROR →
      oracle.setThreadProvision network.mData.mThread ≠ .CHIP_NO_ERROR →
      DoConnectNetwork oracle network =
        (oracle.setThreadProvision network.mData.mThread, network,
         [.setThreadEnabled false, .setThreadProvision network.mData.mThread])) ∧
    (oracle.setThreadEnabled false ≠ .CHIP_NO_ERROR →
      DoConnectNetwork oracle network =
        (oracle.setThreadEnabled false, network, [.setThreadEnabled false])) := by
  refine ⟨fun h1 h2 h3 => ?_, fun h1 h2 => ?_, fun h1 => ?_⟩
  · unfold DoConnectNetwork
    rw [h]
    simp [h1, h2, h3]
  · unfold DoConnectNetwork
    rw [h]
    simp [h1, h2]
  · unfold DoConnectNetwork
    rw [h]
    simp [h1]

/-- Witness for C4 at concrete inputs: a stored Thread profile connected once
through an all-success oracle and once through an oracle whose provision call
fails. -/
theorem thread_connect_ordering_ex :
    DoConnectNetwork oracleProvisionFails threadSlotEx =
      (.CHIP_ERROR_INTERNAL, threadSlotEx,
       [.setThreadEnabled false, .setThreadProvision threadSlotEx.mData.mThread]) ∧
    DoConnectNetwork oracleOk threadSlotEx =
      (.CHIP_NO_ERROR, { threadSlotEx with mEnabled := true },
       [.setThreadEnabled false, .setThreadProvision threadSlotEx.mData.mThread,
        .setThreadEnabled true]) := by
  constructor
  · exact (thread_connect_ordering oracleProvisionFails threadSlotEx rfl).2.1 rfl (by decide)
  · exact (thread_connect_ordering oracleOk threadSlotEx rfl).1 rfl rfl rfl

theorem connectLoop_noMatch (oracle : PlatformOracle) (networkID : Bytes)
    (t : List NetworkInfo) (h : ∀ s ∈ t, ¬ SlotMatches s networkID) :
    connectLoop oracle networkID t = (.kNetworkIDNotFound, t, []) := by
  induction t with
  | nil => rfl
  | cons a t ih =>
    have ha : ¬ SlotMatches a networkID := h a (by simp)
    have ht : ∀ s ∈ t, ¬ SlotMatches s networkID := fun s hs => h s (by simp [hs])
    simp [connectLoop, ha, ih ht]

theorem connectLoop_firstMatch (oracle : PlatformOracle) (networkID : Bytes)
    (d r : List NetworkInfo) (u : NetworkInfo)
    (hd : ∀ s ∈ d, ¬ SlotMatches s networkID) (hm : SlotMatches u networkID) :
    connectLoop oracle networkID (d ++ u :: r) =
      ((if (DoConnectNetwork oracle u).1 = .CHIP_NO_ERROR then .kSuccess else .kUnknownError),
       d ++ (DoConnectNetwork oracle u).2.1 :: r, (DoConnectNetwork oracle u).2.2) := by
  induction d with
  | nil =>
    by_cases he : (DoConnectNetwork oracle u).1 = .CHIP_NO_ERROR <;>
      simp [connectLoop, hm, he]
  | cons a d ih =>
    have ha : ¬ SlotMatches a networkID := hd a (by simp)
    have hd2 : ∀ s ∈ d, ¬ SlotMatches s networkID := fun s hs => hd s (by simp [hs])
    simp [connectLoop, ha, ih hd2]

/-- C7: a connect whose requested id matches no stored profile (exact length
and bytes, Undefined slots never match) answers kNetworkIDNotFound with the
table, trace and notifier untouched; a connect whose first matching profile
is WiFi and whose platform provisioning call succeeds sets that profile's
enabled flag, answers kSuccess and fires the operational-network notifier
with the network id; and the notifier fires exactly on the kSuccess status,
never on a failure path. -/
theorem connect_correctness (oracle : PlatformOracle) (t : List NetworkInfo)
    (networkID : Bytes) :
    ((∀ s ∈ t, ¬ SlotMatches s networkID) →
      OnConnectNetwork oracle t networkID =
        { status := .kNetworkIDNotFound, table := t, trace := [], notified := none }) ∧
    (∀ d u r, t = d ++ u :: r → (∀ s ∈ d, ¬ SlotMatches s networkID) →
      SlotMatches u networkID → u.mNetworkType = .kWiFi →
      oracle.provisionWiFi u.mData.mWiFi.mSSID u.mData.mWiFi.mCredentials = .CHIP_NO_ERROR →
      OnConnectNetwork oracle t networkID =
        { status := .kSuccess, table := d ++ { u with mEnabled := true } :: r,
          trace := [.provisionWiFi u.mData.mWiFi.mSSID u.mData.mWiFi.mCredentials],
          notified := some networkID }) ∧
    ((OnConnectNetwork oracle t networkID).notified = some networkID ↔
      (OnConnectNetwork oracle t networkID).status = .kSuccess) := by
  refine ⟨fun h => ?_, fun d u r ht hd hm hw hp => ?_, ?_⟩
  · unfold OnConnectNetwork
    rw [connectLoop_noMatch oracle networkID t h]
    rfl
  · subst ht
    have hdo : DoConnectNetwork oracle u =
        (.CHIP_NO_ERROR, { u with mEnabled := true },
         [.provisionWiFi u.mData.mWiFi.mSSID u.mData.mWiFi.mCredentials]) := by
      unfold DoConnectNetwork
      rw [hw]
      simp [hp]
    unfold OnConnectNetwork
    rw [connectLoop_firstMatch oracle networkID d r u hd hm, hdo]
    rfl
  · unfold OnConnectNetwork
    by_cases hs : (connectLoop oracle networkID t).1 = .kSuccess <;> simp [hs]

/-- Witness for C7 at concrete inputs: a stored WiFi profile with id 7,7 is
connected successfully through an all-success oracle, and an id absent from
the zero-initialized table answers kNetworkIDNotFound. -/
theorem connect_correctness_ex :
    OnConnectNetwork oracleOk [wifiWritten emptySlot [7, 7] [9], emptySlot] [7, 7] =
      { status := .kSuccess,
        table := [] ++ { wifiWritten emptySlot [7, 7] [9] with mEnabled := true } ::
          [emptySlot],
        trace := [.provisionWiFi (wifiWritten emptySlot [7, 7] [9]).mData.mWiFi.mSSID
          (wifiWritten emptySlot [7, 7] [9]).mData.mWiFi.mCredentials],
        notified := some [7, 7] } ∧
    OnConnectNetwork oracleOk sNetworksInit [1, 2] =
      { status := .kNetworkIDNotFound, table := sNetworksInit, trace := [],
        notified := none } := by
  constructor
  · exact (connect_correctness oracleOk [wifiWritten emptySlot [7, 7] [9], emptySlot]
      [7, 7]).2.1 [] (wifiWritten emptySlot [7, 7] [9]) [emptySlot] rfl (by simp)
      (by decide) rfl rfl
  · exact (connect_correctness oracleOk sNetworksInit [1, 2]).1 (by decide)

/-- C8 counterexample: the status delivered to the caller for a connect that
matches an Ethernet profile is kUnknownError — the very same status the
caller observes for a runtime platform failure on a WiFi connect — so the
not-implemented failure is NOT distinct from runtime failures as observed in
the status delivered to the caller. -/
theorem ethernet_status_equals_platform_failure_status :
    (OnConnectNetwork oracleOk [ethSlotEx] [9]).status = .kUnknownError ∧
    (OnConnectNetwork oracleWiFiFails [wifiWritten emptySlot [7] [8], emptySlot]
      [7]).status = .kUnknownError := by
  decide

/-- C8 (amended): a connect whose first matching profile is Ethernet fails
inside the workflow with the dedicated CHIP_ERROR_NOT_IMPLEMENTED — distinct
from any platform-call failure, and issued before any platform call (the
trace is empty) — but the status delivered to the caller collapses it to
kUnknownError, the same status used for runtime platform failures; the table
and notifier are untouched. -/
theorem ethernet_connect_collapsed (oracle : PlatformOracle) (d r : List NetworkInfo)
    (u : NetworkInfo) (networkID : Bytes)
    (hd : ∀ s ∈ d, ¬ SlotMatches s networkID)
    (hm : SlotMatches u networkID) (he : u.mNetworkType = .kEthernet) :
    DoConnectNetwork oracle u = (.CHIP_ERROR_NOT_IMPLEMENTED, u, []) ∧
    OnConnectNetwork oracle (d ++ u :: r) networkID =
      { status := .kUnknownError, table := d ++ u :: r, trace := [],
        notified := none } := by
  have hdo : DoConnectNetwork oracle u = (.CHIP_ERROR_NOT_IMPLEMENTED, u, []) := by
    unfold DoConnectNetwork
    rw [he]
  refine ⟨hdo, ?_⟩
  unfold OnConnectNetwork
  rw [connectLoop_firstMatch oracle networkID d r u hd hm, hdo]
  rfl

/-- Witness for the amended C8 at a concrete input: a one-slot table holding
the Ethernet profile with id 9. -/
theorem ethernet_connect_collapsed_ex :
    DoConnectNetwork oracleOk ethSlotEx = (.CHIP_ERROR_NOT_IMPLEMENTED, ethSlotEx, []) ∧
    OnConnectNetwork oracleOk ([] ++ ethSlotEx :: []) [9] =
      { status := .kUnknownError, table := [] ++ ethSlotEx :: [], trace := [],
        notified := none } :=
  ethernet_connect_collapsed oracleOk [] [] ethSlotEx [9] (by simp) (by decide) rfl

theorem DoConnectNetwork_frame (oracle : PlatformOracle) (n : NetworkInfo) :
    (DoConnectNetwork oracle n).2.1 = n ∨
    (DoConnectNetwork oracle n).2.1 = { n with mEnabled := true } := by
  unfold DoConnectNetwork
  rcases hn : n.mNetworkType <;> (try (left; rfl)) <;> simp <;> split_ifs <;> simp

theorem countP_zip_self (l : List NetworkInfo) :
    (l.zip l).countP (fun p => decide (¬ p.1 = p.2)) = 0 := by
  induction l with
  | nil => rfl
  | cons a l ih =>
    rw [List.zip_cons_cons, List.countP_cons, ih]
    simp

theorem connectLoop_frame (oracle : PlatformOracle) (networkID : Bytes)
    (t : List NetworkInfo) :
    (connectLoop oracle networkID t).2.1.length = t.length ∧
    (∀ j : Nat, (connectLoop oracle networkID t).2.1[j]? = t[j]? ∨
      (connectLoop oracle networkID t).2.1[j]? =
        (t[j]?).map (fun s : NetworkInfo => { s with mEnabled := true })) ∧
    ((connectLoop oracle networkID t).2.1.zip t).countP
      (fun p => decide (¬ p.1 = p.2)) ≤ 1 := by
  induction t with
  | nil => simp [connectLoop]
  | cons a t ih =>
    by_cases hm : SlotMatches a networkID
    · have key : (connectLoop oracle networkID (a :: t)).2.1 =
          (DoConnectNetwork oracle a).2.1 :: t := by
        simp only [connectLoop, hm, if_true]
        split <;> rfl
      obtain hfr := DoConnectNetwork_frame oracle a
      refine ⟨?_, ?_, ?_⟩
      · rw [key]
        simp
      · intro j
        cases j with
        | zero =>
          rw [key]
          rcases hfr with h | h <;> simp [h]
        | succ j =>
          rw [key]
          simp
      · rw [key]
        simp only [List.zip_cons_cons, List.countP_cons, countP_zip_self t]
        split_ifs <;> simp
    · have key2 : connectLoop oracle networkID (a :: t) =
          ((connectLoop oracle networkID t).1,
           a :: (connectLoop oracle networkID t).2.1,
           (connectLoop oracle networkID t).2.2) := by
        simp [connectLoop, hm]
      obtain ⟨ih1, ih2, ih3⟩ := ih
      refine ⟨?_, ?_, ?_⟩
      · rw [key2]
        simp [ih1]
      · intro j
        cases j with
        | zero =>
          rw [key2]
          simp
        | succ j =>
          rw [key2]
          simpa using ih2 j
      · rw [key2]
        simpa [List.zip_cons_cons, List.countP_cons] using ih3

/-- C10: a connect can change at most one slot of the table, and the only
change it can make to that slot is setting its enabled flag: the table keeps
its length, every position is either exactly its old slot or its old slot
with mEnabled set to true (so network id, id length, type and payload bytes
of every slot are untouched), and at most one position differs at all — on
success and failure paths alike, for every oracle, table and requested id. -/
theorem connect_frame_effect (oracle : PlatformOracle) (t : List NetworkInfo)
    (networkID : Bytes) :
    (OnConnectNetwork oracle t networkID).table.length = t.length ∧
    (∀ j : Nat, (OnConnectNetwork oracle t networkID).table[j]? = t[j]? ∨
      (OnConnectNetwork oracle t networkID).table[j]? =
        (t[j]?).map (fun s : NetworkInfo => { s with mEnabled := true })) ∧
    ((OnConnectNetwork oracle t networkID).table.zip t).countP
      (fun p => decide (¬ p.1 = p.2)) ≤ 1 :=
  connectLoop_frame oracle networkID t

/-- C6: TimedRequest::HandleResponse answers CHIP_ERROR_INVALID_MESSAGE_TYPE
whenever the payload header's message type is not StatusResponse; when it is
StatusResponse and the payload decodes to a non-Success status it answers
CHIP_ERROR_IM_STATUS_CODE_RECEIVED; and when the decoded status is Success
it answers CHIP_NO_ERROR. -/
theorem handle_response_status (aPayloadHeader : PayloadHeader)
    (aPayload : Except ChipError IMStatus) :
    (aPayloadHeader.msgType ≠ .StatusResponse →
      TimedRequest.HandleResponse aPayloadHeader aPayload =
        .CHIP_ERROR_INVALID_MESSAGE_TYPE) ∧
    (∀ s, aPayloadHeader.msgType = .StatusResponse → aPayload = .ok s → s ≠ .Success →
      TimedRequest.HandleResponse aPayloadHeader aPayload =
        .CHIP_ERROR_IM_STATUS_CODE_RECEIVED) ∧
    (aPayloadHeader.msgType = .StatusResponse → aPayload = .ok .Success →
      TimedRequest.HandleResponse aPayloadHeader aPayload = .CHIP_NO_ERROR) := by
  refine ⟨fun h => ?_, fun s h1 h2 h3 => ?_, fun h1 h2 => ?_⟩
  · simp [TimedRequest.HandleResponse, PayloadHeader.HasMessageType, h]
  · simp [TimedRequest.HandleResponse, PayloadHeader.HasMessageType, h1, h2, h3]
  · simp [TimedRequest.HandleResponse, PayloadHeader.HasMessageType, h1, h2]

/-- Witness for C6 at concrete inputs: a ReportData header, a StatusResponse
carrying Failure, and a StatusResponse carrying Success. -/
theorem handle_response_status_ex :
    TimedRequest.HandleResponse { msgType := .ReportData } (.ok .Success) =
      .CHIP_ERROR_INVALID_MESSAGE_TYPE ∧
    TimedRequest.HandleResponse { msgType := .StatusResponse } (.ok .Failure) =
      .CHIP_ERROR_IM_STATUS_CODE_RECEIVED ∧
    TimedRequest.HandleResponse { msgType := .StatusResponse } (.ok .Success) =
      .CHIP_NO_ERROR := by
  refine ⟨?_, ?_, ?_⟩
  · exact (handle_response_status { msgType := .ReportData } (.ok .Success)).1 (by simp)
  · exact (handle_response_status { msgType := .StatusResponse } (.ok .Failure)).2.1
      .Failure rfl rfl (by simp)
  · exact (handle_response_status { msgType := .StatusResponse } (.ok .Success)).2.2 rfl rfl
